import Mathlib

/-!
Shallow embedding of the recurrence evaluation engine of `ical_rust`
(src/date_or_date_time.rs, src/by_day.rs, src/rrule.rs, src/vevent_iterator.rs).

Conventions of the embedding:
* chrono `DateTime<Utc>` is modelled by `UtcDateTime`, a record of calendar
  fields.  chrono's instant ordering and duration arithmetic are modelled by
  converting to seconds since the Unix epoch (`toEpochSeconds`,
  `fromEpochSeconds`, using the standard civil-from-days / days-from-civil
  algorithms), which agrees with chrono on every valid value.
* `chrono::Duration` is an `Int` number of seconds (`Duration::days k` is
  `86400 * k`).
* Rust panics (`unwrap` of `None`, `unimplemented!`, integer division by
  zero, out-of-bounds indexing) are modelled by the `Panik` error type in an
  `Except Panik` monad; typed Rust `Result` errors stay as inner `Except`
  values, so a panic and a returned error are distinguishable outcomes.
* Unbounded `while`/`loop` constructs of the source are given explicit fuel;
  fuel exhaustion is the distinguished outcome `Panik.outOfFuel`, which is
  never reached on the concrete inputs evaluated below.
-/

deriving instance DecidableEq for Except

namespace ICal

/-- Panic outcomes of the Rust source (these abort the process in Rust;
here they are a distinguished error class, separate from typed errors). -/
inductive Panik where
  | unwrapNone
  | unwrapErr
  | divByZero
  | unimplemented
  | indexOutOfBounds
  | outOfFuel
  deriving DecidableEq, Repr

/-- `chrono::Weekday`. -/
inductive Weekday where
  | mon | tue | wed | thu | fri | sat | sun
  deriving DecidableEq, Repr

/-- Model of `chrono::DateTime<Utc>`: the calendar fields chrono exposes.
chrono values are always valid calendar dates; validity is tracked by the
`ValidUtc` predicate below and assumed where the source relies on it. -/
structure UtcDateTime where
  year : Int
  month : Nat
  day : Nat
  hour : Nat
  minute : Nat
  second : Nat
  deriving DecidableEq, Repr

/-- Gregorian leap year (as used by chrono). -/
def isLeapYear (y : Int) : Bool :=
  (y % 4 == 0 && y % 100 != 0) || y % 400 == 0

/-- Number of days of month `m` of year `y`; `0` for an out-of-range month,
so that the validity test below rejects it. -/
def daysInMonth (y : Int) (m : Nat) : Nat :=
  match m with
  | 1 => 31 | 3 => 31 | 5 => 31 | 7 => 31 | 8 => 31 | 10 => 31 | 12 => 31
  | 4 => 30 | 6 => 30 | 9 => 30 | 11 => 30
  | 2 => if isLeapYear y then 29 else 28
  | _ => 0

/-- Validity of a year/month/day/hour/minute/second tuple; this is exactly
the test chrono's `Utc.with_ymd_and_hms` performs (it yields
`LocalResult::None` on an invalid tuple, `LocalResult::Single` otherwise). -/
def validYmdHms (y : Int) (m d h mi s : Nat) : Bool :=
  1 ≤ m && m ≤ 12 && 1 ≤ d && d ≤ daysInMonth y m && h < 24 && mi < 60 && s < 60

/-- Model of `Utc.with_ymd_and_hms`: `none` models `LocalResult::None`. -/
def withYmdAndHms (y : Int) (m d h mi s : Nat) : Option UtcDateTime :=
  if validYmdHms y m d h mi s then some ⟨y, m, d, h, mi, s⟩ else none

/-- Days since 1970-01-01 of the civil date `(y, m, d)` (standard
days-from-civil algorithm; agrees with chrono on valid dates). -/
def daysFromCivil (y : Int) (m d : Nat) : Int :=
  let y' : Int := if m ≤ 2 then y - 1 else y
  let era : Int := Int.fdiv y' 400
  let yoe : Nat := (y' - era * 400).toNat
  let mp : Nat := if m > 2 then m - 3 else m + 9
  let doy : Nat := (153 * mp + 2) / 5 + d - 1
  let doe : Nat := yoe * 365 + yoe / 4 - yoe / 100 + doy
  era * 146097 + (doe : Int) - 719468

/-- Civil date from days since 1970-01-01 (standard civil-from-days
algorithm, inverse of `daysFromCivil` on valid dates). -/
def civilFromDays (z : Int) : Int × Nat × Nat :=
  let z' : Int := z + 719468
  let era : Int := Int.fdiv z' 146097
  let doe : Nat := (z' - era * 146097).toNat
  let yoe : Nat := (doe - doe / 1460 + doe / 36524 - doe / 146096) / 365
  let y : Int := (yoe : Int) + era * 400
  let doy : Nat := doe - (365 * yoe + yoe / 4 - yoe / 100)
  let mp : Nat := (5 * doy + 2) / 153
  let d : Nat := doy - (153 * mp + 2) / 5 + 1
  let m : Nat := if mp < 10 then mp + 3 else mp - 9
  (if m ≤ 2 then y + 1 else y, m, d)

/-- Seconds since the Unix epoch; chrono's instant order and duration
arithmetic coincide with it on valid values. -/
def toEpochSeconds (u : UtcDateTime) : Int :=
  daysFromCivil u.year u.month u.day * 86400
    + (u.hour * 3600 + u.minute * 60 + u.second : Nat)

/-- Instant back to calendar fields. -/
def fromEpochSeconds (t : Int) : UtcDateTime :=
  let days : Int := Int.fdiv t 86400
  let sod : Nat := (t % 86400).toNat
  let c := civilFromDays days
  ⟨c.1, c.2.1, c.2.2, sod / 3600, sod % 3600 / 60, sod % 60⟩

/-- chrono `DateTime<Utc>` ordering (instant order). -/
def utcCmp (a b : UtcDateTime) : Ordering :=
  compare (toEpochSeconds a) (toEpochSeconds b)

/-- chrono `date_naive()` ordering: compare calendar dates only. -/
def dateNaiveCmp (a b : UtcDateTime) : Ordering :=
  compare (daysFromCivil a.year a.month a.day) (daysFromCivil b.year b.month b.day)

/-- `dt + duration` (duration in seconds), as chrono computes it. -/
def addSeconds (u : UtcDateTime) (secs : Int) : UtcDateTime :=
  fromEpochSeconds (toEpochSeconds u + secs)

/-- Weekday of the date of `u` (1970-01-01 was a Thursday). -/
def utcWeekday (u : UtcDateTime) : Weekday :=
  match daysFromCivil u.year u.month u.day % 7 with
  | 0 => .thu | 1 => .fri | 2 => .sat | 3 => .sun
  | 4 => .mon | 5 => .tue | _ => .wed

/-- `unwrap()` on an `Option`: panics on `None`. -/
def unwrapO {α : Type} : Option α → Except Panik α
  | some a => .ok a
  | none => .error .unwrapNone

/-- `unwrap()` on a `Result`: panics on `Err`. -/
def unwrapR {ε α : Type} : Except ε α → Except Panik α
  | .ok a => .ok a
  | .error _ => .error .unwrapErr

/-- `by_day.rs::SubstitutionError`. -/
inductive SubstitutionError where
  | constructingDateTimeBySubstitutingWholeDay
  deriving DecidableEq, Repr

/-- `date_or_date_time.rs::DateIntersectError`. -/
inductive DateIntersectError where
  | startDateAfterEndDate
  deriving DecidableEq, Repr

/-- `date_or_date_time.rs::EventOverlap`. -/
inductive EventOverlap where
  | finishesPast
  | startSameDayEndsSameDay
  | startsSameDayEndsFuture
  | startsPastEndsSameDay
  | startsPastEndsFuture
  | startsFuture
  deriving DecidableEq, Repr

/-- `by_day.rs::Delta` (`delta` is an `i32`). -/
structure Delta where
  delta : Int
  weekday : Weekday
  deriving DecidableEq, Repr

/-- `by_day.rs::ByDay`. -/
inductive ByDay where
  | simple (weekdays : List Weekday)
  | delta (d : Delta)
  deriving DecidableEq, Repr

/-- The nine-arm `match` that both arms of `intersects` contain verbatim
(source lines 317-329 and 345-360): from the two three-way comparisons of
start-vs-reference and end-vs-reference to the classification or the
`StartDateAfterEndDate` failure. -/
def overlapFromOrderings : Ordering → Ordering → Except DateIntersectError EventOverlap
  | .lt, .lt => .ok .finishesPast
  | .lt, .eq => .ok .startsPastEndsSameDay
  | .lt, .gt => .ok .startsPastEndsFuture
  | .eq, .lt => .error .startDateAfterEndDate
  | .eq, .eq => .ok .startSameDayEndsSameDay
  | .eq, .gt => .ok .startsSameDayEndsFuture
  | .gt, _ => .ok .startsFuture

/-- `date_or_date_time.rs::DateOrDateTime`. -/
inductive DateOrDateTime where
  | wholeDay (d : UtcDateTime)
  | dateTime (dt : UtcDateTime)
  deriving DecidableEq, Repr

namespace DateOrDateTime

/-- `DateOrDateTime::date`: the raw inner `DateTime<Utc>` (no truncation). -/
def date : DateOrDateTime → UtcDateTime
  | wholeDay d => d
  | dateTime dt => dt

def year (s : DateOrDateTime) : Int := s.date.year
def month (s : DateOrDateTime) : Nat := s.date.month
def day (s : DateOrDateTime) : Nat := s.date.day

/-- `hour()` reports `0` for a `WholeDay`, whatever its stored instant. -/
def hour : DateOrDateTime → Nat
  | wholeDay _ => 0
  | dateTime d => d.hour

def minute : DateOrDateTime → Nat
  | wholeDay _ => 0
  | dateTime d => d.minute

def second : DateOrDateTime → Nat
  | wholeDay _ => 0
  | dateTime d => d.second

/-- `impl Add<Duration> for DateOrDateTime` (duration in seconds): the tag
is preserved, the inner instant is shifted. -/
def addDur (s : DateOrDateTime) (secs : Int) : DateOrDateTime :=
  match s with
  | wholeDay d => wholeDay (addSeconds d secs)
  | dateTime dt => dateTime (addSeconds dt secs)

/-- `impl Sub for DateOrDateTime` (a `chrono::Duration`, in seconds). -/
def subDod (a b : DateOrDateTime) : Int :=
  toEpochSeconds a.date - toEpochSeconds b.date

/-- `impl Ord for DateOrDateTime`: both operands projected to instants. -/
def dodCmp (a b : DateOrDateTime) : Ordering :=
  utcCmp a.date b.date

/-- `DateOrDateTime::substitute`.  The first `with_ymd_and_hms(...).unwrap()`
(line 47-56 of the source) can panic; the `DateTime` arm performs a second
unwrapped construction with the substituted-or-inherited time fields. -/
def substitute (s : DateOrDateTime)
    (year' : Option Int) (month' day' hour' minute' second' : Option Nat) :
    Except Panik (Except SubstitutionError DateOrDateTime) := do
  let date' ← unwrapO (withYmdAndHms (year'.getD s.year) (month'.getD s.month)
    (day'.getD s.day) 0 0 0)
  match s with
  | wholeDay _ =>
      if hour'.isSome || minute'.isSome || second'.isSome then
        return .error .constructingDateTimeBySubstitutingWholeDay
      else
        return .ok (wholeDay date')
  | dateTime dt => do
      let dt' ← unwrapO (withYmdAndHms date'.year date'.month date'.day
        (hour'.getD dt.hour) (minute'.getD dt.minute) (second'.getD dt.second))
      return .ok (dateTime dt')

/-- `DateOrDateTime::substitute_time_with`. -/
def substituteTimeWith (s : DateOrDateTime) (time : DateOrDateTime) :
    Except Panik DateOrDateTime :=
  match time with
  | wholeDay _ => .ok s
  | dateTime dt =>
      (unwrapO (withYmdAndHms dt.year dt.month dt.day dt.hour dt.minute
        dt.second)).map dateTime

/-- Inner loop of `next_weekdays`, with fuel for the unbounded `while`. -/
def nextWeekdaysLoop (weekdays : List Weekday) :
    Nat → DateOrDateTime → Except Panik DateOrDateTime
  | 0, _ => .error .outOfFuel
  | fuel + 1, ret =>
      if weekdays.any (fun w => utcWeekday ret.date = w) then .ok ret
      else nextWeekdaysLoop weekdays fuel (ret.addDur 86400)

/-- `DateOrDateTime::next_weekdays`: step one day at a time (minimum one)
until the date's weekday is in the list. -/
def nextWeekdays (s : DateOrDateTime) (weekdays : List Weekday) :
    Except Panik DateOrDateTime :=
  nextWeekdaysLoop weekdays 8 (s.addDur 86400)

/-- Scan loop of `move_by_delta` (`loop { ... }` in the source), fueled. -/
def moveByDeltaLoop (delta : Delta) (increment : Int) :
    Nat → Int → DateOrDateTime → Except Panik DateOrDateTime
  | 0, _, _ => .error .outOfFuel
  | fuel + 1, currentDelta, currentDay =>
      if utcWeekday currentDay.date = delta.weekday then
        if currentDelta = 0 then .ok currentDay
        else moveByDeltaLoop delta increment fuel (currentDelta - 1)
          (currentDay.addDur (86400 * increment))
      else moveByDeltaLoop delta increment fuel currentDelta
        (currentDay.addDur (86400 * increment))

/-- `DateOrDateTime::move_by_delta`: anchor at the first or last day of the
moment's month (by the ordinal's sign) and scan for the `|delta|`-th match
of the weekday.  `Duration::days(delta / delta.abs())` is an integer
division: it panics with a division by zero when `delta = 0` (the two
`substitute(...).unwrap()` anchors are computed first). -/
def moveByDelta (s : DateOrDateTime) (delta : Delta) :
    Except Panik DateOrDateTime := do
  let monthStart ← unwrapR (← s.substitute none none (some 1) none none none)
  let monthEndFirst ← unwrapR (← s.substitute
    (some (if s.month = 12 then s.year + 1 else s.year))
    (some (if s.month = 12 then 1 else s.month + 1))
    (some 1) none none none)
  let monthEnd := monthEndFirst.addDur (-86400)
  let currentDelta : Int := delta.delta.natAbs - 1
  if delta.delta.natAbs = 0 then
    .error .divByZero
  else
    let increment : Int := delta.delta / (delta.delta.natAbs : Int)
    let currentDay := if increment = 1 then monthStart else monthEnd
    moveByDeltaLoop delta increment 1000 currentDelta currentDay

/-- `DateOrDateTime::next_by_day`. -/
def nextByDay (s : DateOrDateTime) : ByDay → Except Panik DateOrDateTime
  | .delta d => s.moveByDelta d
  | .simple weekdays => s.nextWeekdays weekdays

/-- Fueled month-stepping loop of `inc_month`: advance the month (wrapping
the year) until `(year, month, day)` is a real date. -/
def incMonthLoop (day : Nat) : Nat → Int → Nat → Except Panik UtcDateTime
  | 0, _, _ => .error .outOfFuel
  | fuel + 1, year, month =>
      match withYmdAndHms year month day 0 0 0 with
      | some d => .ok d
      | none =>
          if month + 1 > 12 then incMonthLoop day fuel (year + 1) 1
          else incMonthLoop day fuel year (month + 1)

/-- `DateOrDateTime::inc_month` (`increment` is a `u32`):
`delta_final_months = month + increment`, `delta_years` its quotient by 12,
`final_month = max(delta_final_months - delta_years * 12, 1)`; then step
months forward until the preserved day-of-month exists. -/
def incMonth (s : DateOrDateTime) (increment : Nat) :
    Except Panik DateOrDateTime := do
  let deltaFinalMonths := s.month + increment
  let deltaYears := deltaFinalMonths / 12
  let finalMonth := max (deltaFinalMonths - deltaYears * 12) 1
  let year : Int := s.year + deltaYears
  let day := s.day
  let date ← incMonthLoop day 60 year finalMonth
  match s with
  | wholeDay _ => return wholeDay date
  | dateTime dt => do
      let d' ← unwrapO (withYmdAndHms date.year date.month date.day
        dt.hour dt.minute dt.second)
      return dateTime d'

/-- `DateOrDateTime::inc_year`: same fields, year advanced; the unwrapped
construction panics when the target date does not exist (Feb 29 into a
non-leap year). -/
def incYear (s : DateOrDateTime) (increment : Nat) :
    Except Panik DateOrDateTime :=
  match s with
  | wholeDay d =>
      (unwrapO (withYmdAndHms (d.year + increment) d.month d.day 0 0 0)).map
        wholeDay
  | dateTime d =>
      (unwrapO (withYmdAndHms (d.year + increment) d.month d.day d.hour
        d.minute d.second)).map dateTime

/-- `DateOrDateTime::intersects`.  A `WholeDay` reference compares the
endpoints' dates (rebuilt at midnight, unwrapped) against its raw inner
instant; a `DateTime` reference coerces `WholeDay` endpoints to midnight
(unwrapped) and compares `date_naive()` values. -/
def intersects (s dtStart dtEnd : DateOrDateTime) :
    Except Panik (Except DateIntersectError EventOverlap) :=
  match s with
  | wholeDay day => do
      let dStart ← unwrapO (withYmdAndHms dtStart.year dtStart.month
        dtStart.day 0 0 0)
      let dEnd ← unwrapO (withYmdAndHms dtEnd.year dtEnd.month dtEnd.day 0 0 0)
      return overlapFromOrderings (utcCmp dStart day) (utcCmp dEnd day)
  | dateTime dt => do
      let dtStart' ← match dtStart with
        | dateTime d => pure d
        | wholeDay d => unwrapO (withYmdAndHms d.year d.month d.day 0 0 0)
      let dtEnd' ← match dtEnd with
        | dateTime d => pure d
        | wholeDay d => unwrapO (withYmdAndHms d.year d.month d.day 0 0 0)
      return overlapFromOrderings (dateNaiveCmp dtStart' dt) (dateNaiveCmp dtEnd' dt)

end DateOrDateTime

/-- `by_day.rs::ByDayParseError` (the `ParseIntError` payload is dropped). -/
inductive ByDayParseError where
  | invalidWeekday (w : String)
  | invalidDelta
  deriving DecidableEq, Repr

/-- Rust `str::split(',')` over the character list (structural recursion,
so that concrete inputs evaluate by reduction).  An empty input yields one
empty token, exactly as in Rust. -/
def splitCommaChars : List Char → List (List Char)
  | [] => [[]]
  | c :: rest =>
      if c = ',' then [] :: splitCommaChars rest
      else
        match splitCommaChars rest with
        | t :: ts => (c :: t) :: ts
        | [] => [c] :: []

/-- `by_day.rs::to_chrono_weekday` (tokens as character lists). -/
def toChronoWeekday (s : List Char) : Except ByDayParseError Weekday :=
  if s = ['S', 'U'] then .ok .sun
  else if s = ['M', 'O'] then .ok .mon
  else if s = ['T', 'U'] then .ok .tue
  else if s = ['W', 'E'] then .ok .wed
  else if s = ['T', 'H'] then .ok .thu
  else if s = ['F', 'R'] then .ok .fri
  else if s = ['S', 'A'] then .ok .sat
  else .error (.invalidWeekday (String.mk s))

/-- Decimal digit value of a character. -/
def digitVal (c : Char) : Option Nat :=
  if c.isDigit then some (c.toNat - 48) else none

/-- Digits of a (non-empty) digit string to a number; `none` on a
non-digit. -/
def digitsToNat (cs : List Char) : Option Nat :=
  cs.foldl (fun acc c => do
    let a ← acc
    let d ← digitVal c
    pure (a * 10 + d)) (some 0)

/-- Model of `str::parse::<i32>`: optional sign then at least one decimal
digit (the i32 range limit is not modelled; the inputs of interest are
small). -/
def parseInt32 (s : List Char) : Option Int :=
  match s with
  | [] => none
  | '+' :: rest =>
      if rest.isEmpty then none else (digitsToNat rest).map Int.ofNat
  | '-' :: rest =>
      if rest.isEmpty then none else (digitsToNat rest).map (fun n => -(n : Int))
  | cs => (digitsToNat cs).map Int.ofNat

/-- `impl FromStr for Delta`: the trailing two characters name the weekday,
the leading remainder is the signed ordinal.  (Rust slices by byte index;
on the ASCII inputs of this grammar character indexing is identical.) -/
def Delta.fromStr (s : List Char) : Except ByDayParseError Delta := do
  let weekday ← toChronoWeekday (s.drop (s.length - 2))
  match parseInt32 (s.take (s.length - 2)) with
  | some d => return ⟨d, weekday⟩
  | none => throw .invalidDelta

/-- `impl FromStr for ByDay`: split on commas, drop empty tokens, then
index `tokens[0]` — which panics (out of bounds) when every token was
empty.  A first token longer than two characters selects the `Delta`
parse; otherwise every token must be a weekday code. -/
def ByDay.fromStr (s : String) : Except Panik (Except ByDayParseError ByDay) :=
  let tokens := (splitCommaChars s.toList).filter (fun t => !t.isEmpty)
  match tokens with
  | [] => .error .indexOutOfBounds
  | t0 :: _ =>
      if t0.length > 2 then
        .ok ((Delta.fromStr t0).map ByDay.delta)
      else
        .ok ((tokens.mapM toChronoWeekday).map ByDay.simple)

/-- `rrule.rs::CommonOptions` (UNTIL / INTERVAL / COUNT plus raw text). -/
structure CommonOptions where
  raw : String
  untilDate : Option DateOrDateTime
  interval : Option Nat
  count : Option Nat
  deriving DecidableEq, Repr

/-- `Options::is_out_of_count`: true iff COUNT is present and
`count >= rrule_count`. -/
def CommonOptions.isOutOfCount (o : CommonOptions) (count : Nat) : Bool :=
  match o.count with
  | some rruleCount => decide (rruleCount ≤ count)
  | none => false

/-- `Options::is_expired`: true iff UNTIL is present and `dt > until`
(instant comparison of `DateOrDateTime`). -/
def CommonOptions.isExpired (o : CommonOptions) (dt : DateOrDateTime) : Bool :=
  match o.untilDate with
  | some u => DateOrDateTime.dodCmp dt u == .gt
  | none => false

structure Yearly where
  common_options : CommonOptions
  deriving DecidableEq, Repr

structure YearlyByMonthByMonthDay where
  month : Nat
  month_day : Nat
  common_options : CommonOptions
  deriving DecidableEq, Repr

structure YearlyByMonthByDay where
  month : Nat
  day : ByDay
  common_options : CommonOptions
  deriving DecidableEq, Repr

structure MonthlyByMonthDay where
  month_day : Nat
  common_options : CommonOptions
  deriving DecidableEq, Repr

structure MonthlyByDay where
  day : ByDay
  common_options : CommonOptions
  deriving DecidableEq, Repr

structure WeeklyByDay where
  day : ByDay
  common_options : CommonOptions
  deriving DecidableEq, Repr

structure Weekly where
  common_options : CommonOptions
  deriving DecidableEq, Repr

structure Daily where
  common_options : CommonOptions
  deriving DecidableEq, Repr

/-- `rrule.rs::RRule`: the eight rule shapes. -/
inductive RRule where
  | yearly (r : Yearly)
  | yearlyByMonthByMonthDay (r : YearlyByMonthByMonthDay)
  | yearlyByMonthByDay (r : YearlyByMonthByDay)
  | monthlyByMonthDay (r : MonthlyByMonthDay)
  | monthlyByDay (r : MonthlyByDay)
  | weeklyByDay (r : WeeklyByDay)
  | weekly (r : Weekly)
  | daily (r : Daily)
  deriving DecidableEq, Repr

/-- `impl Options for RRule`. -/
def RRule.commonOptions : RRule → CommonOptions
  | .yearly r => r.common_options
  | .yearlyByMonthByMonthDay r => r.common_options
  | .yearlyByMonthByDay r => r.common_options
  | .monthlyByMonthDay r => r.common_options
  | .monthlyByDay r => r.common_options
  | .weeklyByDay r => r.common_options
  | .weekly r => r.common_options
  | .daily r => r.common_options

/-- `tzid_date_time.rs::TzIdDateTime`; the `time_zone` field is never
consulted by the occurrence engine and is omitted. -/
structure TzIdDateTime where
  date_time : DateOrDateTime
  deriving DecidableEq, Repr

/-- `vevent.rs::VEvent`, restricted to the fields the occurrence iterator
reads (the metadata fields — summary, description, sequence, … — are not
consulted by it). -/
structure VEvent where
  dt_start : DateOrDateTime
  dt_end : DateOrDateTime
  rrule : Option RRule
  exdates : List TzIdDateTime
  deriving DecidableEq, Repr

/-- `vevent_iterator.rs::VEventIterator` (the borrowed event is stored by
value here). -/
structure VEventIterator where
  event : VEvent
  last_occurrence : Option DateOrDateTime
  count : Nat
  deriving DecidableEq, Repr

/-- `VEventIterator::new`. -/
def VEventIterator.new (event : VEvent) : VEventIterator :=
  ⟨event, none, 0⟩

/-- `VEventIterator::get_next_occurrence_according_to_rule`, as a pure
function of the previous occurrence: the computed occurrence (when not
expired) is both returned and recorded as the new `last_occurrence` by the
caller.  The `YearlyByMonthByDay` arm is `unimplemented!()` — a panic. -/
def getNextOccurrenceAccordingToRule (lastOccurrence : DateOrDateTime) :
    RRule → Except Panik (Option DateOrDateTime)
  | .yearly r => do
      let next ← lastOccurrence.incYear 1
      return if r.common_options.isExpired next then none else some next
  | .yearlyByMonthByDay _ => .error .unimplemented
  | .yearlyByMonthByMonthDay r => do
      let next ← lastOccurrence.incYear 1
      return if r.common_options.isExpired next then none else some next
  | .monthlyByMonthDay r => do
      let next ← lastOccurrence.incMonth (r.common_options.interval.getD 1)
      return if r.common_options.isExpired next then none else some next
  | .monthlyByDay r => do
      let nextMonth ← unwrapR (← lastOccurrence.substitute
        (some (if lastOccurrence.month = 12 then lastOccurrence.year + 1
          else lastOccurrence.year))
        (some (if lastOccurrence.month = 12 then 1
          else lastOccurrence.month + 1))
        (some 1) none none none)
      let next ← nextMonth.nextByDay r.day
      return if r.common_options.isExpired next then none else some next
  | .weekly r =>
      let next := lastOccurrence.addDur (7 * 86400)
      .ok (if r.common_options.isExpired next then none else some next)
  | .weeklyByDay r => do
      let next ← lastOccurrence.nextByDay r.day
      return if r.common_options.isExpired next then none else some next
  | .daily r =>
      let next := lastOccurrence.addDur 86400
      .ok (if r.common_options.isExpired next then none else some next)

/-- The `while iterations > 0 && next_occurrence.is_some()` loop of
`get_next_occurrence_according_to_rule_and_iterations`; the iterator state
records each non-`None` step as the new `last_occurrence`. -/
def iterationsLoop (rrule : RRule) :
    Nat → VEventIterator → Option DateOrDateTime →
    Except Panik (Option DateOrDateTime × VEventIterator)
  | 0, st, cur => .ok (cur, st)
  | iterations + 1, st, cur =>
      match cur with
      | none => .ok (none, st)
      | some m => do
          let r ← getNextOccurrenceAccordingToRule m rrule
          let st' := match r with
            | some nx => { st with last_occurrence := some nx }
            | none => st
          iterationsLoop rrule iterations st' r

/-- `VEventIterator::get_next_occurrence_according_to_rule_and_iterations`:
the first pull returns `dt_start` unconditionally; later pulls stop when
out of COUNT, otherwise apply the rule step INTERVAL times. -/
def getNextOccurrenceAndIterations (st : VEventIterator) :
    Except Panik (Option DateOrDateTime × VEventIterator) :=
  match st.last_occurrence with
  | some last =>
      match st.event.rrule with
      | none => .ok (none, st)
      | some rrule =>
          if rrule.commonOptions.isOutOfCount st.count then .ok (none, st)
          else iterationsLoop rrule (rrule.commonOptions.interval.getD 1) st
            (some last)
  | none =>
      .ok (some st.event.dt_start,
        { st with last_occurrence := some st.event.dt_start })

/-- The exclusion-skipping `loop` of `Iterator::next`, fueled.  An
occurrence is skipped when its raw `.date()` instant compares equal to an
exclusion's raw `.date()` instant; otherwise it is counted and emitted
with `end = occurrence + (dt_end - dt_start)`. -/
def nextSkipLoop :
    Nat → VEventIterator → Option DateOrDateTime →
    Except Panik (Option (DateOrDateTime × DateOrDateTime) × VEventIterator)
  | _, st, none => .ok (none, st)
  | 0, _, some _ => .error .outOfFuel
  | fuel + 1, st, some m =>
      if st.event.exdates.any
          (fun exdate => utcCmp m.date exdate.date_time.date == .eq) then do
        let (n, st') ← getNextOccurrenceAndIterations st
        nextSkipLoop fuel st' n
      else
        let delta := st.event.dt_end.subDod st.event.dt_start
        .ok (some (m, m.addDur delta), { st with count := st.count + 1 })

/-- `impl Iterator for VEventIterator`, `fn next`: one pull of the
occurrence iterator (`fuel` bounds the exclusion-skipping loop). -/
def VEventIterator.next (fuel : Nat) (st : VEventIterator) :
    Except Panik (Option (DateOrDateTime × DateOrDateTime) × VEventIterator) := do
  let (n, st') ← getNextOccurrenceAndIterations st
  nextSkipLoop fuel st' n

/-- Validity of the stored calendar fields: every chrono `DateTime<Utc>`
reachable in the Rust program satisfies this. -/
def ValidUtc (u : UtcDateTime) : Prop :=
  validYmdHms u.year u.month u.day u.hour u.minute u.second = true

/-- Validity of the date part alone (what the midnight reconstructions in
`intersects` need). -/
def ValidDate (u : UtcDateTime) : Prop :=
  validYmdHms u.year u.month u.day 0 0 0 = true

instance (u : UtcDateTime) : Decidable (ValidUtc u) :=
  inferInstanceAs (Decidable (_ = true))

instance (u : UtcDateTime) : Decidable (ValidDate u) :=
  inferInstanceAs (Decidable (_ = true))

/-- From the spec (section 4.1): the three-way-comparison table of
`classify_overlap` — the `IllegalInterval` failure on (equal, less) and the
six classes on the other nine combinations.  Written from the spec's words
to be compared with the source-derived `intersects`. -/
def specOverlapTable : Ordering → Ordering → Except DateIntersectError EventOverlap
  | .lt, .lt => .ok .finishesPast
  | .lt, .eq => .ok .startsPastEndsSameDay
  | .lt, .gt => .ok .startsPastEndsFuture
  | .eq, .lt => .error .startDateAfterEndDate
  | .eq, .eq => .ok .startSameDayEndsSameDay
  | .eq, .gt => .ok .startsSameDayEndsFuture
  | .gt, _ => .ok .startsFuture

/-- The comparison `intersects` performs between one interval endpoint `e`
and the reference `ref`: a `WholeDay` reference compares the endpoint's
date rebuilt at midnight against its raw inner instant; a `DateTime`
reference compares calendar dates (`date_naive`) — coercing a `WholeDay`
endpoint to midnight first leaves its calendar date unchanged. -/
def endpointCmp (ref e : DateOrDateTime) : Ordering :=
  match ref with
  | .wholeDay day => utcCmp ⟨e.date.year, e.date.month, e.date.day, 0, 0, 0⟩ day
  | .dateTime dt => dateNaiveCmp e.date dt

/-- Event used for claim C2: `FREQ=MONTHLY;INTERVAL=2;BYMONTHDAY=15`
starting 2022-01-15, no bounds, no exclusions. -/
def c2Event : VEvent :=
  { dt_start := .wholeDay ⟨2022, 1, 15, 0, 0, 0⟩
    dt_end := .wholeDay ⟨2022, 1, 15, 0, 0, 0⟩
    rrule := some (.monthlyByMonthDay
      ⟨15, ⟨"FREQ=MONTHLY;INTERVAL=2;BYMONTHDAY=15", none, some 2, none⟩⟩)
    exdates := [] }

/-- Event used for claim C3: a timed event at 10:30–11:30 UTC on
2022-02-10 with a whole-day exclusion on that same calendar day. -/
def c3Event : VEvent :=
  { dt_start := .dateTime ⟨2022, 2, 10, 10, 30, 0⟩
    dt_end := .dateTime ⟨2022, 2, 10, 11, 30, 0⟩
    rrule := none
    exdates := [⟨.wholeDay ⟨2022, 2, 10, 0, 0, 0⟩⟩] }

/-- Event used for claim C7: a `FREQ=YEARLY;BYMONTH=1;BYDAY=1MO` rule
(the unimplemented `YearlyByMonthByDay` shape). -/
def c7Event : VEvent :=
  { dt_start := .wholeDay ⟨2022, 1, 3, 0, 0, 0⟩
    dt_end := .wholeDay ⟨2022, 1, 3, 0, 0, 0⟩
    rrule := some (.yearlyByMonthByDay
      ⟨1, .delta ⟨1, .mon⟩, ⟨"FREQ=YEARLY;BYMONTH=1;BYDAY=1MO", none, none, none⟩⟩)
    exdates := [] }

/-- Event used for claim C8's counterexample: the unimplemented yearly
shape with UNTIL strictly before the event start. -/
def c8CEvent : VEvent :=
  { dt_start := .wholeDay ⟨2022, 5, 1, 0, 0, 0⟩
    dt_end := .wholeDay ⟨2022, 5, 1, 0, 0, 0⟩
    rrule := some (.yearlyByMonthByDay
      ⟨5, .delta ⟨1, .mon⟩,
        ⟨"FREQ=YEARLY;BYMONTH=5;BYDAY=1MO;UNTIL=20220101",
          some (.wholeDay ⟨2022, 1, 1, 0, 0, 0⟩), none, none⟩⟩)
    exdates := [] }

/-- Event used for claim C8's witness: a DAILY rule with `COUNT=0` and an
UNTIL strictly before the event start. -/
def c8WEvent : VEvent :=
  { dt_start := .wholeDay ⟨2022, 5, 1, 0, 0, 0⟩
    dt_end := .wholeDay ⟨2022, 5, 2, 0, 0, 0⟩
    rrule := some (.daily
      ⟨⟨"FREQ=DAILY;UNTIL=20220101;COUNT=0",
        some (.wholeDay ⟨2022, 1, 1, 0, 0, 0⟩), none, some 0⟩⟩)
    exdates := [] }

/-- Event used for claim C8's counterexample, exclusion mode: a DAILY rule
with `COUNT=0` and an exclusion whose raw instant equals the event start
(the common `EXDATE` = `DTSTART` case). -/
def c8XEvent : VEvent :=
  { dt_start := .wholeDay ⟨2022, 5, 1, 0, 0, 0⟩
    dt_end := .wholeDay ⟨2022, 5, 2, 0, 0, 0⟩
    rrule := some (.daily ⟨⟨"FREQ=DAILY;COUNT=0", none, none, some 0⟩⟩)
    exdates := [⟨.wholeDay ⟨2022, 5, 1, 0, 0, 0⟩⟩] }

/-- Sanity: the epoch conversions and weekday agree with known dates
(2022-02-05 was a Saturday, used throughout the repository's tests). -/
theorem epoch_sanity :
    daysFromCivil 1970 1 1 = 0 ∧
    civilFromDays 19028 = (2022, 2, 5) ∧
    daysFromCivil 2022 2 5 = 19028 ∧
    utcWeekday ⟨2022, 2, 5, 0, 0, 0⟩ = .sat ∧
    fromEpochSeconds (toEpochSeconds ⟨2022, 12, 31, 23, 59, 59⟩)
      = ⟨2022, 12, 31, 23, 59, 59⟩ := by
  refine ⟨by decide, by decide, by decide, by decide, by decide⟩

/-- Helper: every in-range month has at least 28 days. -/
theorem daysInMonth_ge (y : Int) (m : Nat) (h1 : 1 ≤ m) (h2 : m ≤ 12) :
    28 ≤ daysInMonth y m := by
  interval_cases m
  all_goals simp only [daysInMonth]
  all_goals try split
  all_goals omega

/-- C1 (code_bug evaluation): `inc_month` does not implement
`new_month = ((month - 1 + n) mod 12) + 1, year += (month - 1 + n) div 12`.
Whenever `month + n` is a multiple of 12 (a December target) the
`max(delta_final_months - delta_years * 12, 1)` fallback produces January
of the following year instead: November 15 2022 plus one month evaluates
to January 15 2023, while the claimed formula gives December 15 2022. -/
theorem c1_inc_month_skips_december :
    (DateOrDateTime.wholeDay ⟨2022, 11, 15, 0, 0, 0⟩).incMonth 1
      = .ok (.wholeDay ⟨2023, 1, 15, 0, 0, 0⟩) ∧
    ((11 - 1 + 1) % 12 + 1, 2022 + (11 - 1 + 1) / 12) = ((12 : Nat), (2022 : Nat)) ∧
    ((1 : Nat), (2023 : Nat)) ≠ ((12 : Nat), (2022 : Nat)) := by
  refine ⟨by decide, by decide, by decide⟩

/-- C2 (code_bug evaluation): with `INTERVAL = 2` on a MonthlyByMonthDay
rule, the step loop runs twice and each sub-step calls `inc_month(2)` (not
`inc_month(1)`), so the second pull after 2022-01-15 lands on 2022-05-15 —
four months later — while the claim says the provisional occurrence is
exactly INTERVAL = 2 months after the previous one (2022-03-15). -/
theorem c2_interval_applied_per_substep :
    VEventIterator.next 1 (VEventIterator.new c2Event)
      = .ok (some (.wholeDay ⟨2022, 1, 15, 0, 0, 0⟩, .wholeDay ⟨2022, 1, 15, 0, 0, 0⟩),
          ⟨c2Event, some (.wholeDay ⟨2022, 1, 15, 0, 0, 0⟩), 1⟩) ∧
    VEventIterator.next 1 ⟨c2Event, some (.wholeDay ⟨2022, 1, 15, 0, 0, 0⟩), 1⟩
      = .ok (some (.wholeDay ⟨2022, 5, 15, 0, 0, 0⟩, .wholeDay ⟨2022, 5, 15, 0, 0, 0⟩),
          ⟨c2Event, some (.wholeDay ⟨2022, 5, 15, 0, 0, 0⟩), 2⟩) ∧
    DateOrDateTime.wholeDay (⟨2022, 5, 15, 0, 0, 0⟩ : UtcDateTime)
      ≠ .wholeDay ⟨2022, 3, 15, 0, 0, 0⟩ := by
  refine ⟨by decide, by decide, by decide⟩

/-- C3 (code_bug evaluation): the exclusion check compares the raw
`.date()` instants, not calendar dates.  The provisional occurrence
2022-02-10T10:30Z has the same calendar date as the whole-day exclusion
2022-02-10, yet the iterator emits it and increments the count — the
claim (and the source's own comment) say a date-only match must discard
it without counting. -/
theorem c3_exclusion_matches_instants_not_dates :
    dateNaiveCmp ⟨2022, 2, 10, 10, 30, 0⟩ ⟨2022, 2, 10, 0, 0, 0⟩ = .eq ∧
    utcCmp ⟨2022, 2, 10, 10, 30, 0⟩ ⟨2022, 2, 10, 0, 0, 0⟩ ≠ .eq ∧
    VEventIterator.next 1 (VEventIterator.new c3Event)
      = .ok (some (.dateTime ⟨2022, 2, 10, 10, 30, 0⟩, .dateTime ⟨2022, 2, 10, 11, 30, 0⟩),
          ⟨c3Event, some (.dateTime ⟨2022, 2, 10, 10, 30, 0⟩), 1⟩) := by
  refine ⟨by decide, by decide, by decide⟩

/-- C5 (code_bug evaluation): December 15 2022 has day-of-month 15 ≤ 28,
yet `inc_month(12)` gives January 15 2024 while `inc_year(1)` gives
December 15 2023 — the claimed identity fails for December dates (same
root cause as the `inc_month` December slip of C1). -/
theorem c5_inc_month12_differs_from_inc_year1 :
    (DateOrDateTime.wholeDay ⟨2022, 12, 15, 0, 0, 0⟩).incMonth 12
      = .ok (.wholeDay ⟨2024, 1, 15, 0, 0, 0⟩) ∧
    (DateOrDateTime.wholeDay ⟨2022, 12, 15, 0, 0, 0⟩).incYear 1
      = .ok (.wholeDay ⟨2023, 12, 15, 0, 0, 0⟩) ∧
    (15 : Nat) ≤ 28 ∧
    DateOrDateTime.wholeDay (⟨2024, 1, 15, 0, 0, 0⟩ : UtcDateTime)
      ≠ .wholeDay ⟨2023, 12, 15, 0, 0, 0⟩ := by
  refine ⟨by decide, by decide, by decide, by decide⟩

/-- C4 counterexample: under a Timed reference (2022-02-10T08:00Z) an
interval starting at a strictly later instant of the same calendar day
(2022-02-10T10:30Z) does NOT classify as StartsFuture: the DateTime arm of
`intersects` compares `date_naive()` values, so the result is
StartsSameDayEndsFuture.  This refutes the full-instant-granularity claim. -/
theorem c4_counterexample :
    dateNaiveCmp ⟨2022, 2, 10, 10, 30, 0⟩ ⟨2022, 2, 10, 8, 0, 0⟩ = .eq ∧
    utcCmp ⟨2022, 2, 10, 10, 30, 0⟩ ⟨2022, 2, 10, 8, 0, 0⟩ = .gt ∧
    DateOrDateTime.intersects (.dateTime ⟨2022, 2, 10, 8, 0, 0⟩)
        (.dateTime ⟨2022, 2, 10, 10, 30, 0⟩) (.dateTime ⟨2025, 2, 10, 18, 30, 0⟩)
      = .ok (.ok .startsSameDayEndsFuture) ∧
    EventOverlap.startsSameDayEndsFuture ≠ EventOverlap.startsFuture := by
  refine ⟨by decide, by decide, by decide, by decide⟩

/-- C7 (amended): stepping any rule of the YearlyByMonthAndWeekday shape
hits `unimplemented!()` — a panic, modelled as `Panik.unimplemented` —
for every previous occurrence and every option record; it never returns a
typed error value and never produces a date. -/
theorem c7_yearly_by_month_by_day_panics (last : DateOrDateTime)
    (r : YearlyByMonthByDay) :
    getNextOccurrenceAccordingToRule last (.yearlyByMonthByDay r)
      = .error .unimplemented := rfl

/-- C7 counterexample: on a concrete YearlyByMonthAndWeekday event the
first pull emits the start interval and the second pull panics
(`Panik.unimplemented`), so the failure is a panic, not a typed
`Unsupported` error returned to the caller. -/
theorem c7_counterexample :
    VEventIterator.next 1 (VEventIterator.new c7Event)
      = .ok (some (.wholeDay ⟨2022, 1, 3, 0, 0, 0⟩, .wholeDay ⟨2022, 1, 3, 0, 0, 0⟩),
          ⟨c7Event, some (.wholeDay ⟨2022, 1, 3, 0, 0, 0⟩), 1⟩) ∧
    VEventIterator.next 1 ⟨c7Event, some (.wholeDay ⟨2022, 1, 3, 0, 0, 0⟩), 1⟩
      = .error .unimplemented := by
  refine ⟨by decide, by decide⟩

/-- C8 counterexample, both failure modes of the claim "for every event".
Exclusion mode (`c8XEvent`): an exclusion whose raw instant equals the
start makes the first pull skip the start and re-pull, which consults
COUNT — with `COUNT = 0` the fresh iterator returns nothing at all (zero
intervals, not one), so the first pull is not unconditional.  UNTIL mode
(`c8CEvent`): a start (2022-05-01) strictly after UNTIL (2022-01-01) on
the unimplemented yearly shape still emits the first interval, but the
second pull panics instead of exhausting. -/
theorem c8_counterexample :
    VEventIterator.next 1 (VEventIterator.new c8XEvent)
      = .ok (none, ⟨c8XEvent, some (.wholeDay ⟨2022, 5, 1, 0, 0, 0⟩), 0⟩) ∧
    DateOrDateTime.dodCmp (.wholeDay ⟨2022, 5, 1, 0, 0, 0⟩)
        (.wholeDay ⟨2022, 1, 1, 0, 0, 0⟩) = .gt ∧
    VEventIterator.next 1 (VEventIterator.new c8CEvent)
      = .ok (some (.wholeDay ⟨2022, 5, 1, 0, 0, 0⟩, .wholeDay ⟨2022, 5, 1, 0, 0, 0⟩),
          ⟨c8CEvent, some (.wholeDay ⟨2022, 5, 1, 0, 0, 0⟩), 1⟩) ∧
    VEventIterator.next 1 ⟨c8CEvent, some (.wholeDay ⟨2022, 5, 1, 0, 0, 0⟩), 1⟩
      = .error .unimplemented := by
  refine ⟨by decide, by decide, by decide, by decide⟩

/-- Helper: `with_ymd_and_hms` on a valid tuple yields the record. -/
theorem withYmdAndHms_of_valid (y : Int) (m d h mi s : Nat)
    (hv : validYmdHms y m d h mi s = true) :
    withYmdAndHms y m d h mi s = some ⟨y, m, d, h, mi, s⟩ := by
  simp [withYmdAndHms, hv]

/-- Helper: the source's duplicated nine-arm match equals the spec's
classification table. -/
theorem overlapFromOrderings_eq_spec (o1 o2 : Ordering) :
    overlapFromOrderings o1 o2 = specOverlapTable o1 o2 := by
  cases o1 <;> cases o2 <;> rfl

/-- Helper: `intersects` with a Timed reference and Timed endpoints is the
classification table applied to the two date-only comparisons. -/
theorem intersects_dateTime_eq_table (r s e : UtcDateTime) :
    DateOrDateTime.intersects (.dateTime r) (.dateTime s) (.dateTime e)
      = .ok (specOverlapTable (dateNaiveCmp s r) (dateNaiveCmp e r)) := by
  rw [← overlapFromOrderings_eq_spec]
  rfl

/-- C4 (amended): classify_overlap compares at date-only granularity for a
Timed reference as well — the DateTime arm compares `date_naive()` values
(a WholeDay endpoint is first coerced to its midnight instant, leaving its
calendar date unchanged).  Hence an interval whose start is a strictly
later instant on the same calendar day classifies by the same-day row of
the table and never as StartsFuture. -/
theorem c4_timed_reference_date_granularity (r s e : UtcDateTime)
    (h : dateNaiveCmp s r = .eq) :
    DateOrDateTime.intersects (.dateTime r) (.dateTime s) (.dateTime e)
      = .ok (specOverlapTable .eq (dateNaiveCmp e r)) ∧
    DateOrDateTime.intersects (.dateTime r) (.dateTime s) (.dateTime e)
      ≠ .ok (.ok .startsFuture) := by
  rw [intersects_dateTime_eq_table, h]
  refine ⟨rfl, ?_⟩
  cases dateNaiveCmp e r <;> simp [specOverlapTable]

/-- Witness for C4's amended theorem at a concrete input (the reference
and start of the repository's own `check_intersects_date_time` test). -/
theorem c4_timed_reference_date_granularity_witness :
    dateNaiveCmp ⟨2022, 2, 10, 10, 30, 0⟩ ⟨2022, 2, 10, 8, 0, 0⟩ = .eq ∧
    (DateOrDateTime.intersects (.dateTime ⟨2022, 2, 10, 8, 0, 0⟩)
        (.dateTime ⟨2022, 2, 10, 10, 30, 0⟩) (.dateTime ⟨2025, 2, 10, 18, 30, 0⟩)
      = .ok (specOverlapTable .eq
          (dateNaiveCmp ⟨2025, 2, 10, 18, 30, 0⟩ ⟨2022, 2, 10, 8, 0, 0⟩)) ∧
    DateOrDateTime.intersects (.dateTime ⟨2022, 2, 10, 8, 0, 0⟩)
        (.dateTime ⟨2022, 2, 10, 10, 30, 0⟩) (.dateTime ⟨2025, 2, 10, 18, 30, 0⟩)
      ≠ .ok (.ok .startsFuture)) :=
  ⟨by decide, c4_timed_reference_date_granularity _ _ _ (by decide)⟩

/-- C6: for every reference moment and interval endpoints (with valid
stored dates, as chrono guarantees), `classify_overlap` equals the spec's
table applied to the code's start-vs-reference and end-vs-reference
comparisons: it fails with IllegalInterval exactly on the (equal, less)
combination and maps the nine remaining combinations to the six classes
exactly as the claim lists them. -/
theorem c6_classify_overlap_table (ref s e : DateOrDateTime)
    (hs : ValidDate s.date) (he : ValidDate e.date) :
    DateOrDateTime.intersects ref s e
      = .ok (specOverlapTable (endpointCmp ref s) (endpointCmp ref e)) := by
  rw [← overlapFromOrderings_eq_spec]
  have h1 := withYmdAndHms_of_valid s.date.year s.date.month s.date.day 0 0 0 hs
  have h2 := withYmdAndHms_of_valid e.date.year e.date.month e.date.day 0 0 0 he
  cases ref with
  | wholeDay day =>
      unfold DateOrDateTime.intersects
      simp only [DateOrDateTime.year, DateOrDateTime.month, DateOrDateTime.day]
      rw [h1, h2]
      rfl
  | dateTime dt =>
      cases s with
      | dateTime a =>
          cases e with
          | dateTime b => rfl
          | wholeDay b =>
              simp only [DateOrDateTime.date] at h2
              simp only [DateOrDateTime.intersects, h2]
              rfl
      | wholeDay a =>
          simp only [DateOrDateTime.date] at h1
          cases e with
          | dateTime b =>
              simp only [DateOrDateTime.intersects, h1]
              rfl
          | wholeDay b =>
              simp only [DateOrDateTime.date] at h2
              simp only [DateOrDateTime.intersects, h1, h2]
              rfl

/-- Witness for C6 at a concrete input (the first case of the
repository's `check_intersects_date` test: reference 2022-02-10 whole-day,
interval 2022-02-01T10:30Z to 2022-02-05T10:30Z — FinishesPast). -/
theorem c6_classify_overlap_table_witness :
    ValidDate (DateOrDateTime.date (.dateTime ⟨2022, 2, 1, 10, 30, 0⟩)) ∧
    ValidDate (DateOrDateTime.date (.dateTime ⟨2022, 2, 5, 10, 30, 0⟩)) ∧
    DateOrDateTime.intersects (.wholeDay ⟨2022, 2, 10, 0, 0, 0⟩)
        (.dateTime ⟨2022, 2, 1, 10, 30, 0⟩) (.dateTime ⟨2022, 2, 5, 10, 30, 0⟩)
      = .ok (specOverlapTable
          (endpointCmp (.wholeDay ⟨2022, 2, 10, 0, 0, 0⟩) (.dateTime ⟨2022, 2, 1, 10, 30, 0⟩))
          (endpointCmp (.wholeDay ⟨2022, 2, 10, 0, 0, 0⟩) (.dateTime ⟨2022, 2, 5, 10, 30, 0⟩))) :=
  ⟨by decide, by decide,
    c6_classify_overlap_table _ _ _ (by decide) (by decide)⟩

/-- C9: on any input all of whose comma-split tokens are empty (such as
the empty string or a run of commas), `ByDay::from_str` panics with an
out-of-bounds index on `tokens[0]` instead of returning a typed parse
error: filtering drops every token and the vector is indexed unchecked. -/
theorem c9_by_day_all_empty_tokens_panics (s : String)
    (h : ∀ t ∈ splitCommaChars s.toList, t.isEmpty = true) :
    ByDay.fromStr s = .error .indexOutOfBounds := by
  have hf : (splitCommaChars s.toList).filter (fun t => !t.isEmpty) = [] := by
    rw [List.filter_eq_nil_iff]
    intro a ha
    simp [h a ha]
  simp only [ByDay.fromStr, hf]

/-- Witness for C9 at the concrete input "," (both split tokens empty). -/
theorem c9_by_day_all_empty_tokens_panics_witness :
    (∀ t ∈ splitCommaChars ",".toList, t.isEmpty = true) ∧
    ByDay.fromStr "," = .error .indexOutOfBounds :=
  ⟨by decide, c9_by_day_all_empty_tokens_panics "," (by decide)⟩

/-- Helper: a valid month paired with day 1 and in-range time fields is a
valid tuple. -/
theorem validYmdHms_day_one (y : Int) (m h mi s : Nat)
    (hm1 : 1 ≤ m) (hm2 : m ≤ 12) (hh : h < 24) (hmi : mi < 60) (hs : s < 60) :
    validYmdHms y m 1 h mi s = true := by
  have hd := daysInMonth_ge y m hm1 hm2
  simp only [validYmdHms, Bool.and_eq_true, decide_eq_true_eq]
  omega

/-- Helper: bind on a successful `Except` computation. -/
theorem ok_bind {ε α β : Type} (a : α) (f : α → Except ε β) :
    (Except.ok a : Except ε α) >>= f = f a := rfl

/-- C10: `move_by_delta` with an ordinal of zero panics with a division by
zero for every moment (with valid stored fields, as chrono guarantees):
the two month-anchor substitutions succeed first, then
`Duration::days(delta / delta.abs())` divides by `abs(0) = 0`. -/
theorem c10_move_by_delta_ordinal_zero_panics (s : DateOrDateTime) (w : Weekday)
    (h : ValidUtc s.date) :
    s.moveByDelta ⟨0, w⟩ = .error .divByZero := by
  simp only [ValidUtc, validYmdHms, Bool.and_eq_true, decide_eq_true_eq] at h
  obtain ⟨⟨⟨⟨⟨⟨hm1, hm2⟩, hd1⟩, hd2⟩, hh⟩, hmi⟩, hsec⟩ := h
  have hv1 : validYmdHms s.date.year s.date.month 1 0 0 0 = true :=
    validYmdHms_day_one _ _ 0 0 0 hm1 hm2 (by omega) (by omega) (by omega)
  have hv2 : validYmdHms s.date.year s.date.month 1 s.date.hour s.date.minute
      s.date.second = true :=
    validYmdHms_day_one _ _ _ _ _ hm1 hm2 hh hmi hsec
  have hm2a : 1 ≤ (if s.date.month = 12 then 1 else s.date.month + 1) := by
    split <;> omega
  have hm2b : (if s.date.month = 12 then 1 else s.date.month + 1) ≤ 12 := by
    split <;> omega
  have hv3 : validYmdHms (if s.date.month = 12 then s.date.year + 1 else s.date.year)
      (if s.date.month = 12 then 1 else s.date.month + 1) 1 0 0 0 = true :=
    validYmdHms_day_one _ _ 0 0 0 hm2a hm2b (by omega) (by omega) (by omega)
  have hv4 : validYmdHms (if s.date.month = 12 then s.date.year + 1 else s.date.year)
      (if s.date.month = 12 then 1 else s.date.month + 1) 1 s.date.hour
      s.date.minute s.date.second = true :=
    validYmdHms_day_one _ _ _ _ _ hm2a hm2b hh hmi hsec
  cases s with
  | wholeDay a =>
      simp only [DateOrDateTime.date] at hv1 hv3
      have e1 : DateOrDateTime.substitute (.wholeDay a) none none (some 1)
            none none none
          = .ok (.ok (.wholeDay ⟨a.year, a.month, 1, 0, 0, 0⟩)) := by
        unfold DateOrDateTime.substitute
        simp only [DateOrDateTime.year, DateOrDateTime.month, DateOrDateTime.date,
          Option.getD]
        rw [withYmdAndHms_of_valid _ _ _ _ _ _ hv1]
        rfl
      have e2 : DateOrDateTime.substitute (.wholeDay a)
            (some (if a.month = 12 then a.year + 1 else a.year))
            (some (if a.month = 12 then 1 else a.month + 1))
            (some 1) none none none
          = .ok (.ok (.wholeDay ⟨if a.month = 12 then a.year + 1 else a.year,
              if a.month = 12 then 1 else a.month + 1, 1, 0, 0, 0⟩)) := by
        unfold DateOrDateTime.substitute
        simp only [DateOrDateTime.year, DateOrDateTime.month, DateOrDateTime.date,
          Option.getD]
        rw [withYmdAndHms_of_valid _ _ _ _ _ _ hv3]
        rfl
      unfold DateOrDateTime.moveByDelta
      simp only [DateOrDateTime.year, DateOrDateTime.month, DateOrDateTime.date]
      rw [e1, e2]
      rfl
  | dateTime a =>
      simp only [DateOrDateTime.date] at hv1 hv2 hv3 hv4
      have e1 : DateOrDateTime.substitute (.dateTime a) none none (some 1)
            none none none
          = .ok (.ok (.dateTime ⟨a.year, a.month, 1, a.hour, a.minute, a.second⟩)) := by
        unfold DateOrDateTime.substitute
        simp only [DateOrDateTime.year, DateOrDateTime.month, DateOrDateTime.date,
          Option.getD]
        rw [withYmdAndHms_of_valid _ _ _ _ _ _ hv1]
        simp only [unwrapO, ok_bind, Option.getD]
        rw [withYmdAndHms_of_valid _ _ _ _ _ _ hv2]
        rfl
      have e2 : DateOrDateTime.substitute (.dateTime a)
            (some (if a.month = 12 then a.year + 1 else a.year))
            (some (if a.month = 12 then 1 else a.month + 1))
            (some 1) none none none
          = .ok (.ok (.dateTime ⟨if a.month = 12 then a.year + 1 else a.year,
              if a.month = 12 then 1 else a.month + 1, 1,
              a.hour, a.minute, a.second⟩)) := by
        unfold DateOrDateTime.substitute
        simp only [DateOrDateTime.year, DateOrDateTime.month, DateOrDateTime.date,
          Option.getD]
        rw [withYmdAndHms_of_valid _ _ _ _ _ _ hv3]
        simp only [unwrapO, ok_bind, Option.getD]
        rw [withYmdAndHms_of_valid _ _ _ _ _ _ hv4]
        rfl
      unfold DateOrDateTime.moveByDelta
      simp only [DateOrDateTime.year, DateOrDateTime.month, DateOrDateTime.date]
      rw [e1, e2]
      rfl

/-- Witness for C10 at a concrete moment (2022-02-05, the date of the
repository's `move_by_day` test) with a zero-ordinal Sunday selector. -/
theorem c10_move_by_delta_ordinal_zero_panics_witness :
    ValidUtc (DateOrDateTime.date (.wholeDay ⟨2022, 2, 5, 0, 0, 0⟩)) ∧
    DateOrDateTime.moveByDelta (.wholeDay ⟨2022, 2, 5, 0, 0, 0⟩) ⟨0, .sun⟩
      = .error .divByZero :=
  ⟨by decide, c10_move_by_delta_ordinal_zero_panics _ .sun (by decide)⟩

/-- C8 (amended): for every event none of whose exclusions instant-matches
the start, the first pull of a fresh iterator emits the start interval with
neither COUNT nor UNTIL consulted — the rule (and with it COUNT and UNTIL)
is completely unconstrained in the first conjunct, so a start strictly
after UNTIL, a COUNT of 0, or no rule at all still yields the first
interval.  And whenever the rule carries `COUNT = 0`, the second pull
returns nothing: exactly one interval is produced. -/
theorem c8_first_pull_unconditional (ev : VEvent)
    (hex : ev.exdates.any
      (fun exdate => utcCmp ev.dt_start.date exdate.date_time.date == .eq) = false) :
    VEventIterator.next 1 (VEventIterator.new ev)
      = .ok (some (ev.dt_start, ev.dt_start.addDur (ev.dt_end.subDod ev.dt_start)),
          ⟨ev, some ev.dt_start, 1⟩) ∧
    ∀ r : RRule, ev.rrule = some r → r.commonOptions.count = some 0 →
      VEventIterator.next 1 ⟨ev, some ev.dt_start, 1⟩
        = .ok (none, ⟨ev, some ev.dt_start, 1⟩) := by
  constructor
  · simp only [VEventIterator.next, VEventIterator.new,
      getNextOccurrenceAndIterations, ok_bind, nextSkipLoop]
    simp [hex]
  · intro r hr hc
    simp only [VEventIterator.next, getNextOccurrenceAndIterations, hr,
      CommonOptions.isOutOfCount, hc, Nat.zero_le]
    simp [ok_bind, nextSkipLoop]

/-- Witness for C8's amended theorem on the concrete `FREQ=DAILY;COUNT=0`
event `c8WEvent`, whose UNTIL (2022-01-01) lies strictly before its start
(2022-05-01): the first pull emits the start interval, the second returns
nothing. -/
theorem c8_first_pull_unconditional_witness :
    c8WEvent.exdates.any
      (fun exdate => utcCmp c8WEvent.dt_start.date exdate.date_time.date == .eq) = false ∧
    DateOrDateTime.dodCmp c8WEvent.dt_start (.wholeDay ⟨2022, 1, 1, 0, 0, 0⟩) = .gt ∧
    VEventIterator.next 1 (VEventIterator.new c8WEvent)
      = .ok (some (c8WEvent.dt_start,
            c8WEvent.dt_start.addDur (c8WEvent.dt_end.subDod c8WEvent.dt_start)),
          ⟨c8WEvent, some c8WEvent.dt_start, 1⟩) ∧
    VEventIterator.next 1 ⟨c8WEvent, some c8WEvent.dt_start, 1⟩
      = .ok (none, ⟨c8WEvent, some c8WEvent.dt_start, 1⟩) :=
  ⟨by decide, by decide,
    (c8_first_pull_unconditional c8WEvent (by decide)).1,
    (c8_first_pull_unconditional c8WEvent (by decide)).2 _ rfl rfl⟩

end ICal
